import Mathlib

/-!
# Verification of the gremlins mutation engine (go-maxhub/gremlins)

Shallow embedding of the mutation engine's core:

* `TokenMutator` with its `apply` / `rollback` operations and the per-file
  lock table, translated from `core/engine/tokenmutator.go`;
* the executor step, the classification of test-runner outcomes and the
  timeout derivation, modelled from the specification (their source files
  are not among the provided sources; the provided tests in
  `cmd/unleash_test.go` corroborate the model);
* the workdir dealer, modelled from the specification (its source file is
  not among the provided sources; `workdir_test.go` corroborates the model).

File contents are byte lists; the file system is a map from path to
optional content together with a per-path write-success flag, so that
read, print and write failures of the Go code are all representable.
-/

/-- Go `token.Token` values used by the mutation catalog. `ILLEGAL` is the
zero value of the type, which a Go map lookup returns on a missing key. -/
inductive Token where
  | ILLEGAL
  | ADD | SUB | MUL | QUO | REM
  | EQL | LSS | GTR | NEQ | LEQ | GEQ
  | INC | DEC
  | LAND | LOR
  | AND | OR | XOR
  | ADD_ASSIGN | SUB_ASSIGN | MUL_ASSIGN | QUO_ASSIGN | REM_ASSIGN
  | AND_ASSIGN | OR_ASSIGN | XOR_ASSIGN
  | BREAK | CONTINUE
  deriving DecidableEq, Repr

/-- `mutator.Type`: the closed set of mutation kinds. -/
inductive MutantType where
  | ConditionalsBoundary
  | ConditionalsNegation
  | IncrementDecrement
  | InvertNegatives
  | ArithmeticBase
  | InvertLogical
  | InvertBitwise
  | InvertAssignments
  | InvertBwAssign
  | InvertLoopCtrl
  | RemoveSelfAssignments
  deriving DecidableEq, Repr

/-- `mutator.Status`: the lifecycle status of a candidate mutation. -/
inductive Status where
  | NotCovered
  | Runnable
  | Lived
  | Killed
  | TimedOut
  | NotViable
  | Skipped
  deriving DecidableEq, Repr

/-- Modelled from the spec: the mutation catalog, `kind → {original token →
replacement token}` (§3, §4.1 of the specification; the `tokenMutations`
table's source file is not among the provided sources). A `none` result
models a missing map entry in Go. -/
def tokenMutations : MutantType → Token → Option Token
  | .ConditionalsBoundary, .LSS => some .LEQ
  | .ConditionalsBoundary, .LEQ => some .LSS
  | .ConditionalsBoundary, .GTR => some .GEQ
  | .ConditionalsBoundary, .GEQ => some .GTR
  | .ConditionalsNegation, .EQL => some .NEQ
  | .ConditionalsNegation, .NEQ => some .EQL
  | .ConditionalsNegation, .LSS => some .GEQ
  | .ConditionalsNegation, .GEQ => some .LSS
  | .ConditionalsNegation, .GTR => some .LEQ
  | .ConditionalsNegation, .LEQ => some .GTR
  | .IncrementDecrement, .INC => some .DEC
  | .IncrementDecrement, .DEC => some .INC
  | .IncrementDecrement, .ADD_ASSIGN => some .SUB_ASSIGN
  | .IncrementDecrement, .SUB_ASSIGN => some .ADD_ASSIGN
  | .InvertNegatives, .SUB => some .ADD
  | .ArithmeticBase, .ADD => some .SUB
  | .ArithmeticBase, .SUB => some .ADD
  | .ArithmeticBase, .MUL => some .QUO
  | .ArithmeticBase, .QUO => some .MUL
  | .ArithmeticBase, .REM => some .MUL
  | .InvertLogical, .LAND => some .LOR
  | .InvertLogical, .LOR => some .LAND
  | .InvertBitwise, .AND => some .OR
  | .InvertBitwise, .OR => some .AND
  | .InvertBitwise, .XOR => some .AND
  | .InvertAssignments, .ADD_ASSIGN => some .SUB_ASSIGN
  | .InvertAssignments, .SUB_ASSIGN => some .ADD_ASSIGN
  | .InvertAssignments, .MUL_ASSIGN => some .QUO_ASSIGN
  | .InvertAssignments, .QUO_ASSIGN => some .MUL_ASSIGN
  | .InvertAssignments, .REM_ASSIGN => some .MUL_ASSIGN
  | .InvertBwAssign, .AND_ASSIGN => some .OR_ASSIGN
  | .InvertBwAssign, .OR_ASSIGN => some .AND_ASSIGN
  | .InvertBwAssign, .XOR_ASSIGN => some .AND_ASSIGN
  | .InvertLoopCtrl, .BREAK => some .CONTINUE
  | .InvertLoopCtrl, .CONTINUE => some .BREAK
  | _, _ => none

/-- `tokenMutations[m.Type()][m.tokenNode.Tok()]` in Go: indexing a map with
a missing key yields the zero value of the value type, here `ILLEGAL`. -/
def mutationFor (t : MutantType) (tok : Token) : Token :=
  (tokenMutations t tok).getD .ILLEGAL

/-- `NodeToken`: the handle into the shared syntax tree holding the node's
token and its position. -/
structure NodeToken where
  tok : Token
  tokPos : Nat
  deriving DecidableEq, Repr

/-- The file system visible to `Apply`/`Rollback`: content per path, plus a
per-path flag saying whether `os.WriteFile` would succeed there. -/
structure FS where
  files : String → Option (List Nat)
  writeOk : String → Bool

/-- `os.ReadFile`: returns the content, or `none` on error. -/
def FS.readFile (fs : FS) (path : String) : Option (List Nat) :=
  fs.files path

/-- `os.WriteFile`: on success returns the updated file system; on failure
returns `none` (the model leaves the content unchanged on failure). -/
def FS.writeFile (fs : FS) (path : String) (content : List Nat) : Option FS :=
  if fs.writeOk path then
    some { fs with files := fun p => if p = path then some content else fs.files p }
  else
    none

/-- `filepath.Join(workDir, filename)`. -/
def pathJoin (a b : String) : String := a ++ "/" ++ b

/-- The error cases `Apply` can return: `os.ReadFile` failure,
`printer.Fprint` failure, `os.WriteFile` failure. -/
inductive ApplyErr where
  | readError
  | printError
  | writeError
  deriving DecidableEq, Repr

/-- `TokenMutator`: the mutator of a `token.Token` from
`core/engine/tokenmutator.go`. `filename` stands for
`m.fs.Position(m.tokenNode.TokPos).Filename`, which is constant for a given
mutator. -/
structure TokenMutator where
  pkg : String
  filename : String
  tokenNode : NodeToken
  workDir : String
  origFile : List Nat
  status : Status
  mutantType : MutantType
  actualToken : Token

/-- `printer.Fprint(w, m.fs, m.file)` pretty-prints the whole shared tree;
its output depends on the token currently stored at the candidate's node.
It is external Go library code, so the model takes it as a function from
that token to an optional byte list (`none` = printing error). -/
abbrev Printer := Token → Option (List Nat)

/-- `writeMutatedFile`: print the tree, then write the bytes to `filename`
with mode 0600. -/
def TokenMutator.writeMutatedFile (m : TokenMutator) (pr : Printer) (fs : FS)
    (filename : String) : Option ApplyErr × FS :=
  match pr m.tokenNode.tok with
  | none => (some .printError, fs)
  | some w =>
    match fs.writeFile filename w with
    | none => (some .writeError, fs)
    | some fs' => (none, fs')

/-- `Apply`: read the workdir file into `origFile`, save the node's token in
`actualToken`, overwrite the node's token with the catalog replacement,
print and write the mutated file, then put the original token back. The
returned triple is (error, updated mutator, updated file system). -/
def TokenMutator.apply (m : TokenMutator) (pr : Printer) (fs : FS) :
    Option ApplyErr × TokenMutator × FS :=
  let filename := pathJoin m.workDir m.filename
  match fs.readFile filename with
  | none => (some .readError, m, fs)
  | some contents =>
    let m1 : TokenMutator :=
      { m with
        origFile := contents
        actualToken := m.tokenNode.tok
        tokenNode := { m.tokenNode with tok := mutationFor m.mutantType m.tokenNode.tok } }
    match m1.writeMutatedFile pr fs filename with
    | (some e, fs') => (some e, m1, fs')
    | (none, fs') =>
      (none, { m1 with tokenNode := { m1.tokenNode with tok := m1.actualToken } }, fs')

/-- `resetOrigFile`: clear the stored original-file buffer. -/
def TokenMutator.resetOrigFile (m : TokenMutator) : TokenMutator :=
  { m with origFile := [] }

/-- `Rollback`: write `origFile` back to the workdir file; the deferred
`resetOrigFile` clears the buffer whether or not the write succeeded. The
returned triple is (write error flag, updated mutator, updated file
system). -/
def TokenMutator.rollback (m : TokenMutator) (fs : FS) :
    Option ApplyErr × TokenMutator × FS :=
  let filename := pathJoin m.workDir m.filename
  match fs.writeFile filename m.origFile with
  | none => (some .writeError, m.resetOrigFile, fs)
  | some fs' => (none, m.resetOrigFile, fs')

/-! ## Per-file lock table (`fileLock` / `cachedLock`) -/

/-- Assoc-list lookup, the model of indexing a Go `map[string]T`. -/
def lookupTable : List (String × Nat) → String → Option Nat
  | [], _ => none
  | (k, v) :: rest, id => if k = id then some v else lookupTable rest id

/-- The process-global lock table `locks` guarded by `mutex`. Mutexes are
identified by the `Nat` at which they were allocated; `nextId` generates a
fresh identity for each `&sync.Mutex{}` allocation. -/
structure LockState where
  locks : List (String × Nat)
  nextId : Nat
  deriving DecidableEq, Repr

/-- `cachedLock`: the read-locked lookup of a file's mutex. -/
def cachedLock (st : LockState) (filename : String) : Option Nat :=
  lookupTable st.locks filename

/-- `fileLock`: look up the file's mutex; on a miss, take the write lock,
re-check the table, and insert a fresh mutex if it is still absent. The
sequential semantics keeps the source's double-checked structure. -/
def fileLock (st : LockState) (filename : String) : Nat × LockState :=
  match cachedLock st filename with
  | some lock => (lock, st)
  | none =>
    match lookupTable st.locks filename with
    | some lock => (lock, st)
    | none =>
      (st.nextId, { locks := (filename, st.nextId) :: st.locks, nextId := st.nextId + 1 })

/-! ## Executor model

The executor's source file is not among the provided sources; it is
modelled from the specification (§4.5) and corroborated by the provided
tests `TestApplyAndRollback`, `TestMutatorTestExecution` and
`TestMutatorRun`. -/

/-- Modelled from the spec: a terminal classification (§4.5 step 1,
"already terminal"). -/
def Status.isTerminal : Status → Bool
  | .Lived => true
  | .Killed => true
  | .TimedOut => true
  | .NotViable => true
  | _ => false

/-- Modelled from the spec: the executor's step-1 guard — `NotCovered`,
skipped, or already terminal candidates are emitted unchanged. -/
def executorSkips (s : Status) : Bool :=
  s = Status.NotCovered || s = Status.Skipped || s.isTerminal

/-- The observable outcome of one test-runner child process: an exit code,
or a deadline expiry. -/
inductive TestOutcome where
  | exited : Nat → TestOutcome
  | deadlineExceeded
  deriving DecidableEq, Repr

/-- Modelled from the spec: classification of the test-runner outcome
(§4.5 step 6): exit 0 → Lived, exit 1 → Killed, any other exit →
NotViable, deadline exceeded → TimedOut. -/
def classify : TestOutcome → Status
  | .exited 0 => .Lived
  | .exited 1 => .Killed
  | .exited _ => .NotViable
  | .deadlineExceeded => .TimedOut

/-- `engine.DefaultTimeoutCoefficient`. -/
def DefaultTimeoutCoefficient : Nat := 3

/-- One second in nanoseconds (`time.Duration` units). -/
def secondNs : Nat := 1000000000

/-- Modelled from the spec: the per-mutation deadline `2s + T₀ × k`, where
`k` is the configured timeout coefficient, defaulting to
`DefaultTimeoutCoefficient` when unset (§4.5, "Timeout derivation"). -/
def mutantTimeout (t0 : Nat) (kCfg : Option Nat) : Nat :=
  2 * secondNs + t0 * kCfg.getD DefaultTimeoutCoefficient

/-- Modelled from the spec: the terminal status given to a candidate whose
`Apply` failed (§7, "candidate emitted with internal error status"). -/
def applyErrorStatus : Status := .NotViable

/-- The observable trace of the executor's handling of one candidate:
which steps ran, the deadline handed to the test runner, and the status
the candidate is emitted with. -/
structure ExecTrace where
  applyCalled : Bool
  rollbackCalled : Bool
  runnerLaunched : Bool
  timeoutNs : Option Nat
  emitted : Status
  deriving DecidableEq, Repr

/-- Modelled from the spec: the executor's per-candidate sequence (§4.5):
skip guard; `Apply` (on error emit without rollback); in dry-run mode skip
the test run and emit `Runnable`; otherwise launch the test runner with
the derived deadline, classify the outcome, and `Rollback` regardless of
the classification. `applyOk` says whether `Apply` returned nil. -/
def executorRun (dryRun : Bool) (t0 : Nat) (kCfg : Option Nat) (st : Status)
    (applyOk : Bool) (out : TestOutcome) : ExecTrace :=
  if executorSkips st then
    { applyCalled := false, rollbackCalled := false, runnerLaunched := false
      timeoutNs := none, emitted := st }
  else if applyOk = false then
    { applyCalled := true, rollbackCalled := false, runnerLaunched := false
      timeoutNs := none, emitted := applyErrorStatus }
  else if dryRun then
    { applyCalled := true, rollbackCalled := true, runnerLaunched := false
      timeoutNs := none, emitted := .Runnable }
  else
    { applyCalled := true, rollbackCalled := true, runnerLaunched := true
      timeoutNs := some (mutantTimeout t0 kCfg), emitted := classify out }

/-! ## Workdir dealer

The dealer's source file is not among the provided sources; it is modelled
from the specification (§3 "Workdir Allocation", §4.3) and corroborated by
the provided `workdir_test.go`. Replica directories are identified by the
`Nat` index of the fresh subdirectory created under the staging root. -/

/-- Modelled from the spec: the cached dealer's state — staging root,
source directory, the internally-synchronized `id → path` mapping, and the
generator of fresh subdirectory names. -/
structure Dealer where
  workDir : String
  srcDir : String
  mapping : List (String × Nat)
  counter : Nat

/-- Assoc-list lookup for the dealer's `id → path` mapping. -/
def lookupDir : List (String × Nat) → String → Option Nat
  | [], _ => none
  | (k, v) :: rest, id => if k = id then some v else lookupDir rest id

/-- Modelled from the spec: `Get(id)` returns the cached replica for `id`,
or creates a fresh subdirectory, deep-copies the source tree into it, and
records it in the mapping. -/
def Dealer.get (d : Dealer) (id : String) : Nat × Dealer :=
  match lookupDir d.mapping id with
  | some p => (p, d)
  | none =>
    (d.counter, { d with mapping := (id, d.counter) :: d.mapping, counter := d.counter + 1 })

/-- Modelled from the spec: `Clean()` removes every replica handed out and
empties the mapping. -/
def Dealer.clean (d : Dealer) : Dealer :=
  { d with mapping := [] }

/-- `NewCachedDealer`: a dealer with an empty cache. -/
def NewCachedDealer (wd src : String) : Dealer :=
  { workDir := wd, srcDir := src, mapping := [], counter := 0 }

/-- Dealer well-formedness: every recorded replica index is below the
fresh-name counter, and no two ids share a replica. Holds for
`NewCachedDealer` and is preserved by `get` and `clean`. -/
def Dealer.WF (d : Dealer) : Prop :=
  (∀ e ∈ d.mapping, e.2 < d.counter) ∧ (d.mapping.map Prod.snd).Nodup

/-! ## Helper lemmas -/

theorem FS.writeFile_files {fs fs' : FS} {p : String} {c : List Nat}
    (h : fs.writeFile p c = some fs') : fs'.files p = some c := by
  unfold FS.writeFile at h
  split at h
  · injection h with h
    subst h
    simp
  · exact absurd h (by simp)

theorem FS.writeFile_isSome {fs : FS} {p : String} {c : List Nat}
    (h : fs.writeOk p = true) : ∃ fs', fs.writeFile p c = some fs' := by
  unfold FS.writeFile
  simp [h]

/-! ## C1 — tree purity across `Apply` -/

/-- A candidate on `<` under `ConditionalsBoundary` in a workdir whose file
is readable. -/
def cexMutator : TokenMutator :=
  { pkg := "example.com", filename := "main.go",
    tokenNode := { tok := .LSS, tokPos := 1 },
    workDir := "wd", origFile := [], status := .Runnable,
    mutantType := .ConditionalsBoundary, actualToken := .ILLEGAL }

/-- A file system where `wd/main.go` is readable but no write succeeds. -/
def cexFS : FS :=
  { files := fun p => if p = "wd/main.go" then some [1, 2, 3] else none,
    writeOk := fun _ => false }

/-- A printer that always succeeds. -/
def cexPrinter : Printer := fun _ => some [9]

/-- C1 counterexample: when `os.WriteFile` fails, `Apply` returns the write
error before the token-restoring line runs, so the in-memory syntax tree's
token at the candidate's node is the replacement (`LEQ`), not the entry
value (`LSS`). -/
theorem apply_tree_purity_cex :
    (cexMutator.apply cexPrinter cexFS).1 = some .writeError ∧
    ((cexMutator.apply cexPrinter cexFS).2.1).tokenNode.tok ≠ cexMutator.tokenNode.tok := by
  decide

/-- C1 (amended): the tree token after `Apply` equals the entry token when
`Apply` returns nil or fails reading the file, but equals the replacement
token (`tokenMutations` value, `ILLEGAL` on a missing entry) when `Apply`
fails printing or writing, because the restoring assignment is skipped on
those error returns. -/
theorem apply_tree_token_cases (m : TokenMutator) (pr : Printer) (fs : FS) :
    ((m.apply pr fs).2.1).tokenNode.tok =
      match (m.apply pr fs).1 with
      | none => m.tokenNode.tok
      | some .readError => m.tokenNode.tok
      | some .printError => mutationFor m.mutantType m.tokenNode.tok
      | some .writeError => mutationFor m.mutantType m.tokenNode.tok := by
  unfold TokenMutator.apply TokenMutator.writeMutatedFile
  cases hr : fs.readFile (pathJoin m.workDir m.filename) with
  | none => simp [hr]
  | some contents =>
    cases hp : pr (mutationFor m.mutantType m.tokenNode.tok) with
    | none => simp [hr, hp]
    | some w =>
      cases hw : fs.writeFile (pathJoin m.workDir m.filename) w with
      | none => simp [hr, hp, hw]
      | some fs' => simp [hr, hp, hw]

/-! ## C2 — rollback fidelity -/

/-- C2: if `Apply` succeeds and the subsequent `Rollback` succeeds, the
bytes of `workdir/file` after `Rollback` equal the bytes on disk
immediately before `Apply`. -/
theorem apply_rollback_identity (m : TokenMutator) (pr : Printer) (fs : FS)
    (h1 : (m.apply pr fs).1 = none)
    (h2 : (((m.apply pr fs).2.1).rollback ((m.apply pr fs).2.2)).1 = none) :
    ((((m.apply pr fs).2.1).rollback ((m.apply pr fs).2.2)).2.2).files
        (pathJoin m.workDir m.filename)
      = fs.files (pathJoin m.workDir m.filename) := by
  unfold TokenMutator.apply TokenMutator.writeMutatedFile at h1 h2 ⊢
  cases hr : fs.readFile (pathJoin m.workDir m.filename) with
  | none => simp [hr] at h1
  | some contents =>
    cases hp : pr (mutationFor m.mutantType m.tokenNode.tok) with
    | none => simp [hr, hp] at h1
    | some w =>
      cases hw : fs.writeFile (pathJoin m.workDir m.filename) w with
      | none => simp [hr, hp, hw] at h1
      | some fs1 =>
        simp only [hr, hp, hw] at h2 ⊢
        unfold TokenMutator.rollback at h2 ⊢
        cases hw2 : fs1.writeFile (pathJoin m.workDir m.filename) contents with
        | none => simp [hw2] at h2
        | some fs2 =>
          simp only [hw2]
          have := FS.writeFile_files hw2
          rw [this]
          exact hr.symm

/-! ## C9 — rollback clears the buffer; a second rollback truncates -/

/-- C9: after `Rollback` returns — even when its write failed — the stored
original-file buffer is empty; hence a second `Rollback` without an
intervening `Apply`, if its write succeeds, leaves `workdir/file` holding
the empty byte sequence. -/
theorem rollback_clears_orig (m : TokenMutator) (fs : FS) :
    ((m.rollback fs).2.1).origFile = [] ∧
    ((((m.rollback fs).2.1).rollback ((m.rollback fs).2.2)).1 = none →
      ((((m.rollback fs).2.1).rollback ((m.rollback fs).2.2)).2.2).files
          (pathJoin m.workDir m.filename) = some []) := by
  constructor
  · unfold TokenMutator.rollback
    cases hw : fs.writeFile (pathJoin m.workDir m.filename) m.origFile with
    | none => simp [hw, TokenMutator.resetOrigFile]
    | some fs1 => simp [hw, TokenMutator.resetOrigFile]
  · intro h2
    unfold TokenMutator.rollback at h2 ⊢
    cases hw : fs.writeFile (pathJoin m.workDir m.filename) m.origFile with
    | none =>
      simp only [hw, TokenMutator.resetOrigFile] at h2 ⊢
      cases hw2 : fs.writeFile (pathJoin m.workDir m.filename) [] with
      | none => simp [hw2] at h2
      | some fs2 => simpa [hw2] using FS.writeFile_files hw2
    | some fs1 =>
      simp only [hw, TokenMutator.resetOrigFile] at h2 ⊢
      cases hw2 : fs1.writeFile (pathJoin m.workDir m.filename) [] with
      | none => simp [hw2] at h2
      | some fs2 => simpa [hw2] using FS.writeFile_files hw2

/-- A candidate on `<` under `ConditionalsBoundary` used to exercise a full
apply-then-rollback round trip. -/
def rbMutator : TokenMutator :=
  { pkg := "example.com", filename := "main.go",
    tokenNode := { tok := .LSS, tokPos := 1 },
    workDir := "wd", origFile := [], status := .Runnable,
    mutantType := .ConditionalsBoundary, actualToken := .ILLEGAL }

/-- A fully writable file system holding `wd/main.go`. -/
def rbFS : FS :=
  { files := fun p => if p = "wd/main.go" then some [1, 2, 3] else none,
    writeOk := fun _ => true }

/-- A printer that always succeeds. -/
def rbPrinter : Printer := fun _ => some [9]

/-- Witness for the C2 theorem at a concrete candidate and file system. -/
theorem apply_rollback_identity_witness :
    ((((rbMutator.apply rbPrinter rbFS).2.1).rollback
          ((rbMutator.apply rbPrinter rbFS).2.2)).2.2).files
        (pathJoin rbMutator.workDir rbMutator.filename)
      = rbFS.files (pathJoin rbMutator.workDir rbMutator.filename) :=
  apply_rollback_identity rbMutator rbPrinter rbFS (by decide) (by decide)

/-- A mutator holding a non-empty `origFile` buffer, as left by a
successful `Apply`. -/
def r9Mutator : TokenMutator :=
  { pkg := "example.com", filename := "main.go",
    tokenNode := { tok := .LSS, tokPos := 1 },
    workDir := "wd", origFile := [4, 5], status := .Runnable,
    mutantType := .ConditionalsBoundary, actualToken := .ILLEGAL }

/-- A fully writable file system holding `wd/main.go`. -/
def r9FS : FS :=
  { files := fun p => if p = "wd/main.go" then some [9] else none,
    writeOk := fun _ => true }

/-- Witness for the C9 theorem: after two rollbacks the workdir file holds
the empty byte sequence. -/
theorem rollback_clears_orig_witness :
    ((r9Mutator.rollback r9FS).2.1).origFile = [] ∧
    ((((r9Mutator.rollback r9FS).2.1).rollback ((r9Mutator.rollback r9FS).2.2)).2.2).files
        (pathJoin r9Mutator.workDir r9Mutator.filename) = some [] :=
  ⟨(rollback_clears_orig r9Mutator r9FS).1,
   (rollback_clears_orig r9Mutator r9FS).2 (by decide)⟩

/-! ## C10 — the substitution lookup is unguarded -/

/-- C10: for a candidate whose kind's substitution table has no entry for
the node's current token, `Apply` proceeds with the Go zero value
`ILLEGAL`, writes the file printed with that token, and returns nil
(assuming the read, print and write themselves succeed): it never refuses
to apply because the substitution is undefined. -/
theorem apply_unguarded_substitution (m : TokenMutator) (pr : Printer) (fs : FS)
    (b w : List Nat)
    (hmiss : tokenMutations m.mutantType m.tokenNode.tok = none)
    (hread : fs.files (pathJoin m.workDir m.filename) = some b)
    (hpr : pr Token.ILLEGAL = some w)
    (hw : fs.writeOk (pathJoin m.workDir m.filename) = true) :
    (m.apply pr fs).1 = none ∧
    ((m.apply pr fs).2.2).files (pathJoin m.workDir m.filename) = some w := by
  have hmf : mutationFor m.mutantType m.tokenNode.tok = Token.ILLEGAL := by
    simp [mutationFor, hmiss]
  obtain ⟨fs', hfs'⟩ := @FS.writeFile_isSome fs (pathJoin m.workDir m.filename) w hw
  unfold TokenMutator.apply TokenMutator.writeMutatedFile
  simp only [FS.readFile, hread, hmf, hpr, hfs']
  exact ⟨trivial, FS.writeFile_files hfs'⟩

/-- A candidate whose token `+` has no `ConditionalsBoundary` substitution. -/
def g10Mutator : TokenMutator :=
  { pkg := "example.com", filename := "main.go",
    tokenNode := { tok := .ADD, tokPos := 2 },
    workDir := "wd", origFile := [], status := .Runnable,
    mutantType := .ConditionalsBoundary, actualToken := .ILLEGAL }

/-- A fully writable file system holding `wd/main.go`. -/
def g10FS : FS :=
  { files := fun p => if p = "wd/main.go" then some [7] else none,
    writeOk := fun _ => true }

/-- A printer that distinguishes the `ILLEGAL` token in its output. -/
def g10Printer : Printer := fun t => if t = .ILLEGAL then some [0] else some [1]

/-- Witness for the C10 theorem: the undefined substitution is applied as
`ILLEGAL` and the write goes through without error. -/
theorem apply_unguarded_substitution_witness :
    (g10Mutator.apply g10Printer g10FS).1 = none ∧
    ((g10Mutator.apply g10Printer g10FS).2.2).files
        (pathJoin g10Mutator.workDir g10Mutator.filename) = some [0] :=
  apply_unguarded_substitution g10Mutator g10Printer g10FS [7] [0]
    (by decide) (by decide) (by decide) rfl

/-! ## C8 — the per-file lock table is monotone -/

/-- C8: `fileLock` is stable — a second call for the same filename returns
the identical mutex and leaves the table unchanged (so the `Lock` and the
deferred `Unlock` in `Apply` hit the same mutex); existing entries are
never replaced or removed; a present entry short-circuits without any
insertion; and a call for one filename never touches any other filename's
entry (locks are created lazily, on first request only). -/
theorem fileLock_monotone (st : LockState) (f g : String) :
    fileLock ((fileLock st f).2) f = fileLock st f ∧
    (∀ l, lookupTable st.locks g = some l →
      lookupTable ((fileLock st f).2).locks g = some l) ∧
    (∀ l, lookupTable st.locks f = some l → fileLock st f = (l, st)) ∧
    (g ≠ f → lookupTable ((fileLock st f).2).locks g = lookupTable st.locks g) := by
  cases hl : lookupTable st.locks f with
  | some l0 =>
    have hf : fileLock st f = (l0, st) := by simp [fileLock, cachedLock, hl]
    refine ⟨?_, ?_, ?_, ?_⟩
    · rw [hf]
      exact hf
    · intro l hg
      rw [hf]
      exact hg
    · intro l hfl
      injection hfl with h
      subst h
      exact hf
    · intro _
      rw [hf]
  | none =>
    have hf : fileLock st f
        = (st.nextId, ⟨(f, st.nextId) :: st.locks, st.nextId + 1⟩) := by
      simp [fileLock, cachedLock, hl]
    refine ⟨?_, ?_, ?_, ?_⟩
    · rw [hf]
      simp [fileLock, cachedLock, lookupTable, hf]
    · intro l hg
      rw [hf]
      simp only [lookupTable]
      by_cases hfg : f = g
      · subst hfg
        rw [hl] at hg
        exact absurd hg (by simp)
      · simp [hfg, hg]
    · intro l hfl
      exact absurd hfl (by simp)
    · intro hgf
      rw [hf]
      simp [lookupTable, Ne.symm hgf]

/-- Witness for the C8 theorem on a table already holding a lock for
`b.go`: requesting `a.go` preserves `b.go`'s mutex, a repeated request for
`b.go` returns the existing mutex without insertion, and the `b.go` entry
is untouched by the `a.go` request. -/
theorem fileLock_monotone_witness :
    lookupTable ((fileLock ⟨[("b.go", 0)], 1⟩ "a.go").2).locks "b.go" = some 0 ∧
    fileLock ⟨[("b.go", 0)], 1⟩ "b.go" = (0, ⟨[("b.go", 0)], 1⟩) ∧
    lookupTable ((fileLock ⟨[("b.go", 0)], 1⟩ "a.go").2).locks "b.go"
      = lookupTable [("b.go", 0)] "b.go" :=
  ⟨(fileLock_monotone ⟨[("b.go", 0)], 1⟩ "a.go" "b.go").2.1 0 (by decide),
   (fileLock_monotone ⟨[("b.go", 0)], 1⟩ "b.go" "b.go").2.2.1 0 (by decide),
   (fileLock_monotone ⟨[("b.go", 0)], 1⟩ "a.go" "b.go").2.2.2 (by decide)⟩

/-! ## C3 — classification is a pure function of the runner outcome -/

/-- C3: for every executed candidate (not skipped, `Apply` succeeded, not a
dry run), the emitted status is `classify` of the test-runner outcome, and
`classify` maps exit 0 to `Lived`, exit 1 to `Killed`, any exit greater
than 1 to `NotViable`, and a deadline expiry to `TimedOut`. -/
theorem executor_classification (t0 : Nat) (kCfg : Option Nat) (st : Status)
    (out : TestOutcome) (h : executorSkips st = false) :
    (executorRun false t0 kCfg st true out).emitted = classify out ∧
    classify (.exited 0) = .Lived ∧
    classify (.exited 1) = .Killed ∧
    (∀ c, 1 < c → classify (.exited c) = .NotViable) ∧
    classify .deadlineExceeded = .TimedOut := by
  refine ⟨?_, rfl, rfl, ?_, rfl⟩
  · simp [executorRun, h]
  · intro c hc
    match c, hc with
    | (n + 2), _ => rfl

/-- Witness for the C3 theorem: a runnable candidate whose tests fail is
emitted as `Killed`, and exit code 2 classifies as `NotViable`. -/
theorem executor_classification_witness :
    (executorRun false 10 none .Runnable true (.exited 1)).emitted
        = classify (.exited 1) ∧
    classify (.exited 2) = .NotViable :=
  ⟨(executor_classification 10 none .Runnable (.exited 1) rfl).1,
   (executor_classification 10 none .Runnable (.exited 1) rfl).2.2.2.1 2 (by decide)⟩

/-! ## C4 — rollback exactly when apply succeeded -/

/-- C4: in the executor, `Rollback` runs if and only if `Apply` ran and
returned without error; in particular an `Apply` error suppresses
`Rollback`, and on `Apply` success `Rollback` runs for every test-runner
outcome and classification. -/
theorem executor_rollback_iff_apply_ok (dr : Bool) (t0 : Nat) (kCfg : Option Nat)
    (st : Status) (ok : Bool) (out : TestOutcome) :
    (executorRun dr t0 kCfg st ok out).rollbackCalled = true ↔
      ((executorRun dr t0 kCfg st ok out).applyCalled = true ∧ ok = true) := by
  unfold executorRun
  cases hs : executorSkips st <;> cases ok <;> cases dr <;> simp

/-! ## C5 — `NotCovered` candidates are never executed -/

/-- C5: a candidate that reaches the executor with status `NotCovered`
launches no test-runner process, and is emitted with its status unchanged
(`Apply` is not even attempted). -/
theorem executor_skips_not_covered (dr : Bool) (t0 : Nat) (kCfg : Option Nat)
    (ok : Bool) (out : TestOutcome) :
    (executorRun dr t0 kCfg .NotCovered ok out).runnerLaunched = false ∧
    (executorRun dr t0 kCfg .NotCovered ok out).emitted = .NotCovered ∧
    (executorRun dr t0 kCfg .NotCovered ok out).applyCalled = false :=
  ⟨rfl, rfl, rfl⟩

/-! ## C6 — deadline derivation -/

/-- C6: the deadline handed to the test runner for an executed candidate is
`2s + T₀ × k`, with `k` read from the configuration and defaulting to 3
when unset. -/
theorem executor_deadline (t0 : Nat) (kCfg : Option Nat) (st : Status)
    (out : TestOutcome) (h : executorSkips st = false) :
    (executorRun false t0 kCfg st true out).timeoutNs
        = some (2 * secondNs + t0 * kCfg.getD 3) ∧
    mutantTimeout t0 none = 2 * secondNs + t0 * 3 := by
  constructor
  · simp [executorRun, h, mutantTimeout, DefaultTimeoutCoefficient]
  · simp [mutantTimeout, DefaultTimeoutCoefficient]

/-- Witness for the C6 theorem: with a 10s baseline and the coefficient
unset, the deadline is 32s in nanoseconds. -/
theorem executor_deadline_witness :
    (executorRun false (10 * secondNs) none .Runnable true (.exited 0)).timeoutNs
        = some (2 * secondNs + 10 * secondNs * 3) :=
  ((executor_deadline (10 * secondNs) none .Runnable (.exited 0) rfl).1).trans
    (by simp)

/-! ## C7 — dealer determinism -/

theorem lookupDir_mem {l : List (String × Nat)} {id : String} {p : Nat}
    (h : lookupDir l id = some p) : (id, p) ∈ l := by
  induction l with
  | nil => simp [lookupDir] at h
  | cons e rest ih =>
    obtain ⟨k, v⟩ := e
    by_cases hk : k = id
    · subst hk
      simp [lookupDir] at h
      subst h
      exact List.mem_cons_self _ _
    · simp only [lookupDir, if_neg hk] at h
      exact List.mem_cons_of_mem _ (ih h)

theorem Dealer.get_lookup_self (d : Dealer) (id : String) :
    lookupDir ((d.get id).2).mapping id = some (d.get id).1 := by
  cases hl : lookupDir d.mapping id with
  | some p => simp [Dealer.get, hl]
  | none => simp [Dealer.get, hl, lookupDir]

theorem Dealer.get_WF {d : Dealer} (h : d.WF) (id : String) : ((d.get id).2).WF := by
  obtain ⟨hb, hn⟩ := h
  cases hl : lookupDir d.mapping id with
  | some p =>
    have hc : d.get id = (p, d) := by simp [Dealer.get, hl]
    rw [hc]
    exact ⟨hb, hn⟩
  | none =>
    refine ⟨?_, ?_⟩
    · intro e he
      simp only [Dealer.get, hl, List.mem_cons] at he ⊢
      rcases he with he | he
      · subst he
        simp
      · exact Nat.lt_succ_of_lt (hb e he)
    · simp only [Dealer.get, hl, List.map_cons, List.nodup_cons]
      refine ⟨?_, hn⟩
      intro hmem
      obtain ⟨e, he, hsnd⟩ := List.mem_map.mp hmem
      have := hb e he
      omega

theorem Dealer.get_fst_lt {d : Dealer} (h : d.WF) (id : String) :
    (d.get id).1 < ((d.get id).2).counter := by
  cases hl : lookupDir d.mapping id with
  | some p =>
    have hmem := lookupDir_mem hl
    have := h.1 _ hmem
    simpa [Dealer.get, hl] using this
  | none => simp [Dealer.get, hl]

theorem dealer_get_cached {d1 : Dealer} {id : String} {p : Nat}
    (h : lookupDir d1.mapping id = some p) : d1.get id = (p, d1) := by
  simp [Dealer.get, h]

theorem dealer_get_fresh_ne {d1 : Dealer} (hwf : d1.WF) {p : Nat} {id id' : String}
    (hne : id ≠ id') (hp : lookupDir d1.mapping id = some p)
    (hlt : p < d1.counter) : (d1.get id').1 ≠ p := by
  cases hl : lookupDir d1.mapping id' with
  | none =>
    simp only [Dealer.get, hl]
    omega
  | some q =>
    simp only [Dealer.get, hl]
    intro hqp
    have hmem := lookupDir_mem hp
    have hmem' := lookupDir_mem hl
    have heq := List.inj_on_of_nodup_map hwf.2 hmem hmem' hqp.symm
    exact hne (congrArg Prod.fst heq)

theorem dealer_clean_get_ne {d1 : Dealer} {p : Nat} (hlt : p < d1.counter)
    (id : String) : ((d1.clean).get id).1 ≠ p := by
  simp [Dealer.clean, Dealer.get, lookupDir]
  omega

/-- C7: for a well-formed dealer, a second `Get` with the same id returns
the same path; a `Get` with a distinct id returns a distinct path; and
after `Clean`, a `Get` with the previously used id returns a new path. -/
theorem dealer_get_determinism (d : Dealer) (h : d.WF) (id id' : String)
    (hne : id ≠ id') :
    ((d.get id).2.get id).1 = (d.get id).1 ∧
    ((d.get id).2.get id').1 ≠ (d.get id).1 ∧
    (((d.get id).2.clean).get id).1 ≠ (d.get id).1 := by
  have hs := Dealer.get_lookup_self d id
  have hwf1 := Dealer.get_WF h id
  have hlt : (d.get id).1 < ((d.get id).2).counter := Dealer.get_fst_lt h id
  exact ⟨by rw [dealer_get_cached hs],
         dealer_get_fresh_ne hwf1 hne hs hlt,
         dealer_clean_get_ne hlt id⟩

/-- Witness for the C7 theorem at a fresh dealer and two worker ids. -/
theorem dealer_get_determinism_witness :
    (((NewCachedDealer "staging" "src").get "worker-1").2.get "worker-1").1
        = ((NewCachedDealer "staging" "src").get "worker-1").1 ∧
    (((NewCachedDealer "staging" "src").get "worker-1").2.get "worker-2").1
        ≠ ((NewCachedDealer "staging" "src").get "worker-1").1 ∧
    ((((NewCachedDealer "staging" "src").get "worker-1").2.clean).get "worker-1").1
        ≠ ((NewCachedDealer "staging" "src").get "worker-1").1 :=
  dealer_get_determinism (NewCachedDealer "staging" "src")
    ⟨by simp [NewCachedDealer], by simp [NewCachedDealer]⟩
    "worker-1" "worker-2" (by decide)

/-- Witness for the C4 theorem: a runnable candidate whose `Apply`
succeeded gets `Rollback` after a `Lived` classification. -/
theorem executor_rollback_iff_apply_ok_witness :
    (executorRun false 5 none .Runnable true (.exited 0)).rollbackCalled = true :=
  (executor_rollback_iff_apply_ok false 5 none .Runnable true (.exited 0)).mpr
    ⟨rfl, rfl⟩
